import Mathlib

/-!
Shallow embedding of `src/app.py` (Local Keyword Volume Checker).

The app is a single-file Streamlit program.  Its effectful surface (file
system, HTTP, widgets) is modelled by explicit environment records that
carry the outcome of each external interaction; every function of the
source becomes a total Lean function over those records.  `st.error`,
`st.warning` and `st.info` calls are modelled as returned status strings
or collected warning lists; `st.stop`-free fall-through is preserved
branch by branch.  Python list truthiness (`if locations:`) is modelled
with `List.isEmpty`; `dict.get` with `Option` fields and `Option.getD`.
-/

/-- A normalized location record, as built by `fetch_locations_from_api`
(`src/app.py` lines 85-89): `{"name": ..., "code": ..., "display": ...}`. -/
structure Location where
  name : String
  code : Int
  display : String
deriving DecidableEq

/-- The JSON document written by `save_locations_to_cache`
(`src/app.py` lines 60-64): `{locations, cached_date, total_count}`. -/
structure CacheData where
  locations : List Location
  cached_date : String
  total_count : Nat
deriving DecidableEq

/-- Environment for the cache-policy functions: the outcome of every
external interaction that `is_cache_fresh`, `load_locations_from_cache`,
`save_locations_to_cache` and `load_all_locations` perform.

* `cacheExists` — `os.path.exists(CACHE_FILE)`;
* `cacheAgeSecs` — `time.time() - os.path.getmtime(CACHE_FILE)`, in seconds
  (a real number, modelled as a rational);
* `cacheRead` — the result of `json.load` on the cache file:
  `some (data["locations"], data["cached_date"])` on success, `none` when
  opening or parsing raises (the `except` branch of
  `load_locations_from_cache`);
* `fetchResult` — the list returned by `fetch_locations_from_api`; the
  source returns `[]` on network errors, non-200 responses and empty
  payloads alike, so an empty list models fetch failure;
* `saveOk` — whether the `json.dump` in `save_locations_to_cache`
  succeeds;
* `now` — `time.strftime("%Y-%m-%d %H:%M:%S")` at save time. -/
structure CacheEnv where
  cacheExists : Bool
  cacheAgeSecs : ℚ
  cacheRead : Option (List Location × String)
  fetchResult : List Location
  saveOk : Bool
  now : String

/-- `CACHE_DAYS = 30` (`src/app.py` line 34). -/
def CACHE_DAYS : ℚ := 30

/-- `is_cache_fresh` (`src/app.py` lines 36-45): the cache file exists and
its age in days (`cache_age / (24 * 3600)`) is strictly below `CACHE_DAYS`. -/
def is_cache_fresh (env : CacheEnv) : Bool :=
  if !env.cacheExists then false
  else decide (env.cacheAgeSecs / (24 * 3600) < CACHE_DAYS)

/-- Python string formatting of an optional value: `str(None)` is `"None"`. -/
def optionStr : Option String → String
  | some s => s
  | none => "None"

/-- `load_locations_from_cache` (`src/app.py` lines 47-55): returns
`(data["locations"], data["cached_date"])`, or `([], None)` when reading
raises (the error is shown, not thrown). -/
def load_locations_from_cache (env : CacheEnv) : List Location × Option String :=
  match env.cacheRead with
  | some (locs, d) => (locs, some d)
  | none => ([], none)

/-- `save_locations_to_cache` (`src/app.py` lines 57-70): builds the cache
document and attempts to write it; returns whether the write succeeded,
paired with the document handed to `json.dump` (the observable write). -/
def save_locations_to_cache (env : CacheEnv) (locations : List Location) :
    Bool × CacheData :=
  (env.saveOk, { locations := locations, cached_date := env.now,
                 total_count := locations.length })

/-- Three-digit zero-padded group for thousands formatting. -/
def pad3 (n : Nat) : String :=
  if n < 10 then "00" ++ toString n
  else if n < 100 then "0" ++ toString n
  else toString n

/-- Python's `f"{n:,}"` thousands-separated rendering of a natural number. -/
def commaSep (n : Nat) : String :=
  if n < 1000 then toString n
  else commaSep (n / 1000) ++ "," ++ pad3 (n % 1000)
decreasing_by exact Nat.div_lt_self (by omega) (by omega)

/-- The terminal failure message of `load_all_locations` (`src/app.py` line 126). -/
def noLocationsMsg : String :=
  "Failed to load locations from API and no cache available"

/-- Observable outcome of one `load_all_locations` run: the returned
`(locations, status)` pair plus whether a live API fetch was attempted
(`fetch_locations_from_api` called) and which cache document, if any, was
handed to `save_locations_to_cache`. -/
structure LoadResult where
  locations : List Location
  status : String
  fetched : Bool
  written : Option CacheData
deriving DecidableEq

/-- Lines 110-126 of `src/app.py`: the part of `load_all_locations` after
the fresh-cache shortcut — fetch from the API, on success save and return,
on failure fall back to any existing cache, else return empty. -/
def fetchAndFallback (env : CacheEnv) : LoadResult :=
  if env.fetchResult.isEmpty then
    if env.cacheExists then
      if (load_locations_from_cache env).1.isEmpty then
        { locations := [], status := noLocationsMsg, fetched := true, written := none }
      else
        { locations := (load_locations_from_cache env).1,
          status := "API failed - using stale cache from "
            ++ optionStr (load_locations_from_cache env).2,
          fetched := true, written := none }
    else
      { locations := [], status := noLocationsMsg, fetched := true, written := none }
  else
    if (save_locations_to_cache env env.fetchResult).1 then
      { locations := env.fetchResult,
        status := "Fresh data fetched and cached (" ++ commaSep env.fetchResult.length
          ++ " locations)",
        fetched := true, written := some (save_locations_to_cache env env.fetchResult).2 }
    else
      { locations := env.fetchResult,
        status := "Fresh data fetched (" ++ commaSep env.fetchResult.length
          ++ " locations) - cache save failed",
        fetched := true, written := some (save_locations_to_cache env env.fetchResult).2 }

/-- `load_all_locations` (`src/app.py` lines 100-126): serve a fresh,
readable, non-empty cache unless `force_refresh`; otherwise fetch live
data with stale-cache fallback. -/
def load_all_locations (env : CacheEnv) (force_refresh : Bool := false) : LoadResult :=
  if !force_refresh && is_cache_fresh env then
    if (load_locations_from_cache env).1.isEmpty then fetchAndFallback env
    else
      { locations := (load_locations_from_cache env).1,
        status := "Using cached data from " ++ optionStr (load_locations_from_cache env).2,
        fetched := false, written := none }
  else fetchAndFallback env

/-- One entry of a `result` array in the provider's location-listing
response; `none` fields model absent JSON keys. -/
structure RawLocEntry where
  location_name : Option String
  location_code : Option Int
deriving DecidableEq

/-- One task of the location-listing response (`task.get("result", [])`). -/
structure LocTask where
  result : List RawLocEntry
deriving DecidableEq

/-- The location-listing HTTP exchange: response status code and, for a
JSON body, `loc_data.get("tasks", [])`. -/
structure LocResponse where
  status_code : Int
  tasks : List LocTask
deriving DecidableEq

/-- Lines 85-89 of `src/app.py`: build one `Location` from a raw entry.
`result["location_name"]` / `result["location_code"]` raise `KeyError`
when missing, modelled by `none`. -/
def locEntryRecord (e : RawLocEntry) : Option Location := do
  let name ← e.location_name
  let code ← e.location_code
  pure { name := name, code := code,
         display := name ++ " (code " ++ toString code ++ ")" }

/-- The inner loop over one task's `result` entries: `none` models a
`KeyError` escaping the loop. -/
def flattenLocEntries : List RawLocEntry → Option (List Location)
  | [] => some []
  | e :: es => do
      let l ← locEntryRecord e
      let ls ← flattenLocEntries es
      pure (l :: ls)

/-- The outer loop over tasks (`src/app.py` lines 83-89). -/
def flattenLocTasks : List LocTask → Option (List Location)
  | [] => some []
  | t :: ts => do
      let ls ← flattenLocEntries t.result
      let rest ← flattenLocTasks ts
      pure (ls ++ rest)

/-- `fetch_locations_from_api` (`src/app.py` lines 72-98): on HTTP 200,
flatten all tasks' entries; a `KeyError` from a missing field is caught by
the surrounding `try`, which returns `[]` — as do non-200 responses and
transport errors. -/
def fetch_locations_from_api (resp : LocResponse) : List Location :=
  if resp.status_code = 200 then
    match flattenLocTasks resp.tasks with
    | some locs => locs
    | none => []
  else []

/-- One entry of a volume task's `result` array; `none` models an absent key. -/
structure VolEntry where
  keyword : Option String
  search_volume : Option Int
  competition : Option String
  cpc : Option ℚ
deriving DecidableEq

/-- One task of the volume response: `status_code`, `status_message`
(both via `.get`, hence optional) and `task.get("result", [])`. -/
structure VolTask where
  status_code : Option Int
  status_message : Option String
  result : List VolEntry
deriving DecidableEq

/-- The volume response body: `vol_data["tasks"]` when the `"tasks"` key
is present, else `none`. -/
structure VolResponse where
  tasks : Option (List VolTask)
deriving DecidableEq

/-- One row appended to `results` (`src/app.py` lines 256-262). -/
structure VolRecord where
  keyword : String
  search_volume : Int
  competition : String
  cpc : String
  location : String
deriving DecidableEq

/-- Two-digit zero-padded rendering of a natural number below 100. -/
def pad2 (n : Nat) : String :=
  if n < 10 then "0" ++ toString n else toString n

/-- Round `t / b` (with `b > 0`) to the nearest integer, ties to even:
the rounding Python's fixed-point float formatting applies. -/
def roundHalfEvenDiv (t : ℤ) (b : ℕ) : ℤ :=
  let f := Int.fdiv t b
  let r := t - f * b
  if 2 * r < b then f
  else if 2 * r > b then f + 1
  else if f % 2 = 0 then f else f + 1

/-- Python's `f"${x:.2f}"` on the (rational) cpc value: two-decimal
dollar string. -/
def formatCpc (x : ℚ) : String :=
  let cents := roundHalfEvenDiv (100 * x.num) x.den
  let sign := if cents < 0 then "-" else ""
  "$" ++ sign ++ toString (cents.natAbs / 100) ++ "." ++ pad2 (cents.natAbs % 100)

/-- Lines 252-262 of `src/app.py`: build one result row from an entry.
`item.get('cpc', 0)` followed by Python truthiness means a missing or
zero cpc renders as `"N/A"`; `Location` is the caller-selected name. -/
def mkVolRecord (selected_location_name : String) (item : VolEntry) : VolRecord :=
  let cpc_value := item.cpc.getD 0
  let cpc_formatted := if cpc_value = 0 then "N/A" else formatCpc cpc_value
  { keyword := item.keyword.getD "N/A",
    search_volume := item.search_volume.getD 0,
    competition := item.competition.getD "N/A",
    cpc := cpc_formatted,
    location := selected_location_name }

/-- Python string formatting of an optional integer (`str(None)` = `"None"`). -/
def optIntStr : Option Int → String
  | some n => toString n
  | none => "None"

/-- The `st.warning` text for a non-success task (`src/app.py` line 264). -/
def taskWarning (t : VolTask) : String :=
  "Task failed with status code: " ++ optIntStr t.status_code ++ " - "
    ++ t.status_message.getD "Unknown error"

/-- One iteration of the task loop (`src/app.py` lines 241-264), folding
`(results, warnings)`. -/
def volStep (selected_location_name : String)
    (acc : List VolRecord × List String) (task : VolTask) :
    List VolRecord × List String :=
  if task.status_code = some 20000 then
    (acc.1 ++ task.result.map (mkVolRecord selected_location_name), acc.2)
  else
    (acc.1, acc.2 ++ [taskWarning task])

/-- Lines 237-264 of `src/app.py`: parse the volume response into result
rows plus the collected non-fatal warnings.  With no `"tasks"` key the
loop body never runs. -/
def parseVolumeResponse (selected_location_name : String) (resp : VolResponse) :
    List VolRecord × List String :=
  match resp.tasks with
  | none => ([], [])
  | some ts => ts.foldl (volStep selected_location_name) ([], [])

/-- The message shown when `results` is empty (`src/app.py` line 274). -/
def noResultsMsg : String :=
  "❌ No results returned. Check debug info above to see what went wrong."

/-- What the handler displays after parsing: a table, or the no-results
message (lines 266-274); in both cases control returns normally. -/
inductive VolOutcome where
  | table (rows : List VolRecord)
  | noResults (msg : String)
deriving DecidableEq

/-- Lines 266-274 of `src/app.py`. -/
def volumeOutcome (records : List VolRecord) : VolOutcome :=
  if records.isEmpty then .noResults noResultsMsg else .table records

/-- ASCII whitespace stripped by Python's `str.strip()`. -/
def isPySpace (c : Char) : Bool :=
  c == ' ' || c == '\t' || c == '\n' || c == '\x0d' || c == '\x0c' || c == '\x0b'

/-- Python's `k.strip()`: drop leading and trailing whitespace. -/
def pyStrip (s : String) : String :=
  ⟨((s.data.dropWhile isPySpace).reverse.dropWhile isPySpace).reverse⟩

/-- Helper for `str.split("\n")`, accumulating the current line reversed. -/
def pySplitNlAux : List Char → List Char → List String
  | [], acc => [⟨acc.reverse⟩]
  | c :: cs, acc =>
      if c == '\n' then ⟨acc.reverse⟩ :: pySplitNlAux cs []
      else pySplitNlAux cs (c :: acc)

/-- Python's `keywords_input.split("\n")`. -/
def pySplitNl (s : String) : List String := pySplitNlAux s.data []

/-- Line 211 of `src/app.py`:
`[k.strip() for k in keywords_input.split("\n") if k.strip()]`. -/
def build_keywords (keywords_input : String) : List String :=
  ((pySplitNl keywords_input).map pyStrip).filter (fun k => !k.isEmpty)

/-- The single element of the request body `vol_payload`
(`src/app.py` lines 212-216). -/
structure VolPayload where
  keywords : List String
  language_code : String
  location_code : Int
deriving DecidableEq

/-- Construction of `vol_payload[0]` from the raw text-area input and the
selected language and location. -/
def mkVolPayload (keywords_input language_code : String) (location_code : Int) :
    VolPayload :=
  { keywords := build_keywords keywords_input,
    language_code := language_code,
    location_code := location_code }

/-! ### Concrete states used to instantiate the theorems -/

/-- A sample normalized location record. -/
def berlin : Location := { name := "Berlin", code := 1, display := "Berlin (code 1)" }

/-- No cache file, and the live fetch failed. -/
def envNoCache : CacheEnv :=
  { cacheExists := false, cacheAgeSecs := 100, cacheRead := none,
    fetchResult := [], saveOk := true, now := "2025-10-12 00:00:00" }

/-- No cache file, and the live fetch succeeded. -/
def envFetchOk : CacheEnv :=
  { cacheExists := false, cacheAgeSecs := 0, cacheRead := none,
    fetchResult := [berlin], saveOk := true, now := "2025-10-12 00:00:00" }

/-- A fresh cache file whose read raises, with a succeeding live fetch. -/
def envFreshUnread : CacheEnv :=
  { cacheExists := true, cacheAgeSecs := 0, cacheRead := none,
    fetchResult := [berlin], saveOk := true, now := "2025-10-12 00:00:00" }

/-- A fresh, readable, non-empty cache, with a failing live fetch. -/
def envStaleFallback : CacheEnv :=
  { cacheExists := true, cacheAgeSecs := 0,
    cacheRead := some ([berlin], "2025-09-01 00:00:00"),
    fetchResult := [], saveOk := true, now := "2025-10-12 00:00:00" }

/-- A cache file whose age is exactly the freshness window (30 days in
seconds). -/
def envBoundary : CacheEnv :=
  { cacheExists := true, cacheAgeSecs := 30 * (24 * 3600), cacheRead := none,
    fetchResult := [], saveOk := true, now := "2025-10-12 00:00:00" }

/-- The volume task of the batch scenario in §8 of the spec: status 20000
with two result entries, cpc `1.25` (the rational `5/4`) on the first,
none on the second. -/
def scenarioVolTask : VolTask :=
  { status_code := some 20000, status_message := some "Ok.",
    result :=
      [ { keyword := some "running shoes", search_volume := some 1000,
          competition := none, cpc := some ⟨5, 4, by decide, by decide⟩ },
        { keyword := some "trail shoes", search_volume := some 0,
          competition := none, cpc := none } ] }

/-- A volume task that failed with provider status 40000. -/
def volTask40000 : VolTask :=
  { status_code := some 40000, status_message := none,
    result := [ { keyword := some "kw", search_volume := some 5,
                  competition := none, cpc := none } ] }

/-- A location-listing response with one well-formed entry followed by an
entry missing `location_name`. -/
def locRespBad : LocResponse :=
  { status_code := 200,
    tasks := [ { result :=
        [ { location_name := some "Berlin", location_code := some 1 },
          { location_name := none, location_code := some 2 } ] } ] }

/-! ### Helper lemmas about the cache policy -/

/-- A fresh cache implies the cache file exists. -/
theorem is_cache_fresh_cacheExists (env : CacheEnv)
    (h : is_cache_fresh env = true) : env.cacheExists = true := by
  cases hex : env.cacheExists
  · unfold is_cache_fresh at h
    rw [hex] at h
    simp at h
  · rfl

/-- The fetch-with-fallback stage always performs a live fetch. -/
theorem fetchAndFallback_fetched (env : CacheEnv) :
    (fetchAndFallback env).fetched = true := by
  unfold fetchAndFallback
  repeat' split
  all_goals rfl

/-- `force_refresh = true` routes straight to the fetch stage. -/
theorem load_all_locations_force_eq (env : CacheEnv) :
    load_all_locations env true = fetchAndFallback env := by
  simp [load_all_locations]

/-- The fetch-with-fallback stage returns an empty list only if the fetch
itself came back empty. -/
theorem fetchAndFallback_locations_empty (env : CacheEnv)
    (h : (fetchAndFallback env).locations = []) : env.fetchResult = [] := by
  revert h
  unfold fetchAndFallback
  cases hfr : env.fetchResult with
  | nil => intro _; rfl
  | cons a l =>
    cases hs : env.saveOk <;> simp [save_locations_to_cache, hs]

/-- Emptiness characterization of the fetch-with-fallback stage, for
environments whose existing cache (if any) is readable and non-empty. -/
theorem fetchAndFallback_empty_iff (env : CacheEnv)
    (hwf : env.cacheExists = true →
      ∃ locs d, env.cacheRead = some (locs, d) ∧ locs ≠ []) :
    ((fetchAndFallback env).locations = [] ↔
      env.cacheExists = false ∧ env.fetchResult = []) := by
  unfold fetchAndFallback
  cases hfr : env.fetchResult with
  | cons a l =>
    cases hs : env.saveOk <;> simp [save_locations_to_cache, hs]
  | nil =>
    cases hex : env.cacheExists with
    | false => simp
    | true =>
      obtain ⟨locs, d, hr, hne⟩ := hwf hex
      simp [load_locations_from_cache, hr, hne]

/-- On a successful fetch, the fetch-with-fallback stage saves the fetched
list (with timestamp and count) and returns it. -/
theorem fetchAndFallback_saves (env : CacheEnv)
    (hne : env.fetchResult ≠ []) :
    (fetchAndFallback env).written =
      some { locations := env.fetchResult, cached_date := env.now,
             total_count := env.fetchResult.length } ∧
    (fetchAndFallback env).locations = env.fetchResult := by
  unfold fetchAndFallback
  cases hfr : env.fetchResult with
  | nil => exact absurd hfr hne
  | cons a l =>
    cases hs : env.saveOk <;> simp [save_locations_to_cache, hs]

/-! ### Claim theorems -/

/-- C2: for every cache age, `is_cache_fresh` reports fresh exactly when
the age in days is strictly below the 30-day window, and an age of
exactly the window is stale. -/
theorem is_cache_fresh_iff_age_lt_window (env : CacheEnv)
    (h : env.cacheExists = true) :
    (is_cache_fresh env = true ↔ env.cacheAgeSecs / (24 * 3600) < CACHE_DAYS) ∧
    (env.cacheAgeSecs / (24 * 3600) = CACHE_DAYS → is_cache_fresh env = false) := by
  constructor
  · simp [is_cache_fresh, h]
  · intro heq
    simp [is_cache_fresh, h, heq]

/-- Witness for C2 at a concrete environment whose cache age is exactly
30 days. -/
theorem is_cache_fresh_iff_age_lt_window_witness :
    (is_cache_fresh envBoundary = true ↔
      envBoundary.cacheAgeSecs / (24 * 3600) < CACHE_DAYS) ∧
    (envBoundary.cacheAgeSecs / (24 * 3600) = CACHE_DAYS →
      is_cache_fresh envBoundary = false) :=
  is_cache_fresh_iff_age_lt_window envBoundary rfl

/-- C1: `load_all_locations` is total by construction (it is a Lean
function into `LoadResult`), and — when any existing cache is readable
and non-empty, as in the claim's absent/stale/fresh state space — it
returns an empty location list exactly when no cache file is present and
the live fetch failed. -/
theorem load_all_locations_empty_iff (env : CacheEnv) (force_refresh : Bool)
    (hwf : env.cacheExists = true →
      ∃ locs d, env.cacheRead = some (locs, d) ∧ locs ≠ []) :
    ((load_all_locations env force_refresh).locations = [] ↔
      env.cacheExists = false ∧ env.fetchResult = []) := by
  unfold load_all_locations
  cases hb : (!force_refresh && is_cache_fresh env) with
  | false =>
    simp only [hb, if_neg Bool.false_ne_true]
    exact fetchAndFallback_empty_iff env hwf
  | true =>
    have hfresh : is_cache_fresh env = true := by
      cases h : is_cache_fresh env
      · rw [h] at hb; simp at hb
      · rfl
    have hex : env.cacheExists = true := is_cache_fresh_cacheExists env hfresh
    obtain ⟨locs, d, hr, hne⟩ := hwf hex
    simp [hb, load_locations_from_cache, hr, hne, hex]

/-- Witness for C1: no cache present and a failing fetch yield the empty
list. -/
theorem load_all_locations_empty_iff_witness :
    (load_all_locations envNoCache false).locations = [] ∧
    ((load_all_locations envNoCache false).locations = [] ↔
      envNoCache.cacheExists = false ∧ envNoCache.fetchResult = []) :=
  ⟨by decide, load_all_locations_empty_iff envNoCache false (fun h => nomatch h)⟩

/-- C3: with `force_refresh = true` the freshness check is bypassed — a
live fetch is attempted for every environment, fresh cache included —
and when that fetch fails while any readable non-empty cache exists
(however old), the cached locations are returned instead of an empty
list. -/
theorem load_all_locations_force_refresh (env : CacheEnv) :
    (load_all_locations env true).fetched = true ∧
    (env.fetchResult = [] → env.cacheExists = true →
      ∀ locs d, env.cacheRead = some (locs, d) → locs ≠ [] →
        (load_all_locations env true).locations = locs ∧
        (load_all_locations env true).locations ≠ []) := by
  rw [load_all_locations_force_eq]
  refine ⟨fetchAndFallback_fetched env, ?_⟩
  intro hfr hex locs d hr hne
  unfold fetchAndFallback
  simp [hfr, hex, load_locations_from_cache, hr, hne]

/-- Witness for C3: a fresh cache, a forced refresh and a failing fetch
still return the cached locations. -/
theorem load_all_locations_force_refresh_witness :
    (load_all_locations envStaleFallback true).fetched = true ∧
    (load_all_locations envStaleFallback true).locations = [berlin] ∧
    (load_all_locations envStaleFallback true).locations ≠ [] := by
  have h := load_all_locations_force_refresh envStaleFallback
  have h2 := h.2 rfl rfl [berlin] "2025-09-01 00:00:00" rfl (by decide)
  exact ⟨h.1, h2.1, h2.2⟩

/-- C7: whenever a live fetch was performed and succeeded (non-empty
list), `load_all_locations` hands exactly that list — with timestamp and
count — to `save_locations_to_cache` before returning it. -/
theorem load_all_locations_saves_on_success (env : CacheEnv) (force_refresh : Bool)
    (hne : env.fetchResult ≠ [])
    (hf : (load_all_locations env force_refresh).fetched = true) :
    (load_all_locations env force_refresh).written =
      some { locations := env.fetchResult, cached_date := env.now,
             total_count := env.fetchResult.length } ∧
    (load_all_locations env force_refresh).locations = env.fetchResult := by
  have key : load_all_locations env force_refresh = fetchAndFallback env := by
    unfold load_all_locations at hf ⊢
    cases hb : (!force_refresh && is_cache_fresh env) with
    | false => simp [hb]
    | true =>
      rw [hb] at hf
      simp only [if_pos rfl] at hf ⊢
      cases hl : (load_locations_from_cache env).1.isEmpty with
      | true => simp [hl]
      | false => rw [hl] at hf; simp at hf
  rw [key]
  exact fetchAndFallback_saves env hne

/-- Witness for C7 at a concrete environment with no cache and a
successful fetch. -/
theorem load_all_locations_saves_on_success_witness :
    (load_all_locations envFetchOk false).written =
      some { locations := envFetchOk.fetchResult, cached_date := envFetchOk.now,
             total_count := envFetchOk.fetchResult.length } ∧
    (load_all_locations envFetchOk false).locations = envFetchOk.fetchResult :=
  load_all_locations_saves_on_success envFetchOk false (by decide) (by decide)

/-- C10: a cache that is fresh by modification time but unreadable (or
reading to an empty list) is not served; `load_all_locations` falls
through to a live fetch, and only a failure of that fetch can make the
result empty. -/
theorem load_all_locations_fresh_unreadable (env : CacheEnv)
    (hfresh : is_cache_fresh env = true)
    (hempty : (load_locations_from_cache env).1 = []) :
    (load_all_locations env false).fetched = true ∧
    ((load_all_locations env false).locations = [] → env.fetchResult = []) := by
  have key : load_all_locations env false = fetchAndFallback env := by
    unfold load_all_locations
    simp [hfresh, hempty]
  rw [key]
  exact ⟨fetchAndFallback_fetched env, fetchAndFallback_locations_empty env⟩

/-- Witness for C10: a zero-age cache file whose read raises, with a
successful live fetch. -/
theorem load_all_locations_fresh_unreadable_witness :
    (load_all_locations envFreshUnread false).fetched = true ∧
    ((load_all_locations envFreshUnread false).locations = [] →
      envFreshUnread.fetchResult = []) :=
  load_all_locations_fresh_unreadable envFreshUnread
    (by simp [envFreshUnread, is_cache_fresh, CACHE_DAYS]) rfl

/-! ### Helper lemmas about the volume parser and location fetcher -/

/-- Unrolling the task loop: the accumulator is only ever appended to. -/
theorem volStep_foldl (loc : String) (ts : List VolTask)
    (acc : List VolRecord × List String) :
    ts.foldl (volStep loc) acc =
      (acc.1 ++ ts.flatMap (fun t =>
          if t.status_code = some 20000 then t.result.map (mkVolRecord loc) else []),
       acc.2 ++ ts.flatMap (fun t =>
          if t.status_code = some 20000 then [] else [taskWarning t])) := by
  induction ts generalizing acc with
  | nil => simp
  | cons t ts ih =>
    by_cases h : t.status_code = some 20000 <;>
      simp [volStep, h, ih, List.append_assoc]

/-- Closed form of the volume parser on a response with a `tasks` key. -/
theorem parseVolumeResponse_spec (loc : String) (ts : List VolTask) :
    parseVolumeResponse loc { tasks := some ts } =
      (ts.flatMap (fun t =>
          if t.status_code = some 20000 then t.result.map (mkVolRecord loc) else []),
       ts.flatMap (fun t =>
          if t.status_code = some 20000 then [] else [taskWarning t])) := by
  simpa [parseVolumeResponse] using volStep_foldl loc ts ([], [])

/-- A missing required field makes `locEntryRecord` fail. -/
theorem locEntryRecord_eq_none {e : RawLocEntry}
    (h : e.location_name = none ∨ e.location_code = none) :
    locEntryRecord e = none := by
  rcases h with h | h
  · simp [locEntryRecord, h]
  · cases hn : e.location_name <;> simp [locEntryRecord, hn, h]

/-- A failing entry anywhere in a task's `result` fails the whole inner
flatten. -/
theorem flattenLocEntries_eq_none {es : List RawLocEntry} {e : RawLocEntry}
    (he : e ∈ es) (hb : locEntryRecord e = none) :
    flattenLocEntries es = none := by
  induction es with
  | nil => cases he
  | cons a es ih =>
    rcases List.mem_cons.mp he with rfl | hmem
    · simp [flattenLocEntries, hb]
    · cases ha : locEntryRecord a
      · simp [flattenLocEntries, ha]
      · simp [flattenLocEntries, ha, ih hmem]

/-- A failing task anywhere fails the whole outer flatten. -/
theorem flattenLocTasks_eq_none {ts : List LocTask} {t : LocTask}
    (ht : t ∈ ts) (hb : flattenLocEntries t.result = none) :
    flattenLocTasks ts = none := by
  induction ts with
  | nil => cases ht
  | cons a ts ih =>
    rcases List.mem_cons.mp ht with rfl | hmem
    · simp [flattenLocTasks, hb]
    · cases ha : flattenLocEntries a.result
      · simp [flattenLocTasks, ha]
      · simp [flattenLocTasks, ha, ih hmem]

/-- C4: only tasks with status code 20000 contribute records; every other
task contributes nothing and yields exactly one collected (non-fatal)
warning built from its status code and status message.  Concretely, a
single task with status 40000 yields zero records and one warning naming
that code. -/
theorem parseVolumeResponse_only_success_tasks :
    (∀ loc ts,
      (parseVolumeResponse loc { tasks := some ts }).1 =
        ts.flatMap (fun t =>
          if t.status_code = some 20000 then t.result.map (mkVolRecord loc) else []) ∧
      (parseVolumeResponse loc { tasks := some ts }).2 =
        ts.flatMap (fun t =>
          if t.status_code = some 20000 then [] else [taskWarning t])) ∧
    parseVolumeResponse "Austin,Texas,United States" { tasks := some [volTask40000] } =
      ([], ["Task failed with status code: 40000 - Unknown error"]) := by
  refine ⟨fun loc ts => ?_, by decide⟩
  rw [parseVolumeResponse_spec]
  exact ⟨rfl, rfl⟩

/-- C5: each `result` entry of a successful task maps to a record taking
`keyword` from the entry, `search_volume` defaulting to 0, `competition`
defaulting to `"N/A"`, `cpc` as a two-decimal dollar string when present
and non-zero and `"N/A"` otherwise, and `location` from the caller —
entries being read from the task's `result` array itself. -/
theorem parseVolumeResponse_record_fields (loc : String) (t : VolTask)
    (h : t.status_code = some 20000) :
    (parseVolumeResponse loc { tasks := some [t] }).1 =
      t.result.map (fun item =>
        { keyword := item.keyword.getD "N/A",
          search_volume := item.search_volume.getD 0,
          competition := item.competition.getD "N/A",
          cpc := if item.cpc.getD 0 = 0 then "N/A" else formatCpc (item.cpc.getD 0),
          location := loc }) := by
  rw [parseVolumeResponse_spec]
  simp [h]
  intro a _
  rfl

/-- Witness for C5: the spec's volume batch scenario, with cpc `1.25`
rendered as `"$1.25"` and an absent cpc as `"N/A"`. -/
theorem parseVolumeResponse_record_fields_witness :
    scenarioVolTask.status_code = some 20000 ∧
    (parseVolumeResponse "United States" { tasks := some [scenarioVolTask] }).1 =
      [ { keyword := "running shoes", search_volume := 1000, competition := "N/A",
          cpc := "$1.25", location := "United States" },
        { keyword := "trail shoes", search_volume := 0, competition := "N/A",
          cpc := "N/A", location := "United States" } ] := by
  refine ⟨rfl, ?_⟩
  rw [parseVolumeResponse_record_fields "United States" scenarioVolTask rfl]
  decide

/-- C9: a response without a `tasks` key, or whose successful tasks carry
no result entries, parses to an empty record sequence, and the handler
surfaces that as the no-results message rather than an exception. -/
theorem parseVolumeResponse_no_results (loc : String) (resp : VolResponse)
    (h : resp.tasks = none ∨
      ∃ ts, resp.tasks = some ts ∧
        ∀ t ∈ ts, t.status_code = some 20000 → t.result = []) :
    (parseVolumeResponse loc resp).1 = [] ∧
    volumeOutcome (parseVolumeResponse loc resp).1 =
      VolOutcome.noResults noResultsMsg := by
  have hrec : (parseVolumeResponse loc resp).1 = [] := by
    rcases h with h | ⟨ts, hts, hall⟩
    · cases resp
      cases h
      rfl
    · cases resp
      cases hts
      rw [parseVolumeResponse_spec]
      induction ts with
      | nil => rfl
      | cons t ts ih =>
        have ht := hall t (List.mem_cons_self t ts)
        have hrest := ih (fun u hu => hall u (List.mem_cons_of_mem t hu))
        by_cases hc : t.status_code = some 20000
        · simp only [List.flatMap_cons, hc, if_pos rfl, ht hc, List.map_nil,
            List.nil_append]
          simpa [parseVolumeResponse_spec] using hrest
        · simp only [List.flatMap_cons, if_neg hc, List.nil_append]
          simpa [parseVolumeResponse_spec] using hrest
  exact ⟨hrec, by rw [hrec]; rfl⟩

/-- Witness for C9: a response with no `tasks` key at all. -/
theorem parseVolumeResponse_no_results_witness :
    (parseVolumeResponse "United States" { tasks := none }).1 = [] ∧
    volumeOutcome (parseVolumeResponse "United States" { tasks := none }).1 =
      VolOutcome.noResults noResultsMsg :=
  parseVolumeResponse_no_results "United States" { tasks := none } (Or.inl rfl)

/-- C8: every keyword placed in the request payload is the stripped form
of one input line and is non-empty — blank lines are discarded before
request construction. -/
theorem build_keywords_trimmed (input lang : String) (code : Int) :
    ∀ k ∈ (mkVolPayload input lang code).keywords,
      k ≠ "" ∧ ∃ l ∈ pySplitNl input, k = pyStrip l := by
  intro k hk
  unfold mkVolPayload build_keywords at hk
  rw [List.mem_filter] at hk
  obtain ⟨hmem, hp⟩ := hk
  rw [List.mem_map] at hmem
  obtain ⟨l, hl, rfl⟩ := hmem
  refine ⟨?_, l, hl, rfl⟩
  intro hkempty
  rw [hkempty] at hp
  simp at hp
  exact absurd hp (by decide)

/-- Witness for C8: the spec's empty-keyword scenario — input lines
`""`, `"  "`, `"shoes"` send only `"shoes"`. -/
theorem build_keywords_trimmed_witness :
    (mkVolPayload "\n  \nshoes" "en" 2840).keywords = ["shoes"] ∧
    ("shoes" ≠ "" ∧ ∃ l ∈ pySplitNl "\n  \nshoes", "shoes" = pyStrip l) :=
  ⟨by decide, build_keywords_trimmed "\n  \nshoes" "en" 2840 "shoes" (by decide)⟩

/-- C6 counterexample: with one well-formed entry and one entry missing
`location_name`, the fetch returns `[]` — it does not skip the bad entry
and return the remaining record, as the claim states. -/
theorem fetch_locations_missing_field_counterexample :
    fetch_locations_from_api locRespBad = [] ∧
    fetch_locations_from_api locRespBad ≠
      [ { name := "Berlin", code := 1, display := "Berlin (code 1)" } ] := by
  decide

/-- C6 amended: an entry missing a required field aborts the whole fetch —
the `KeyError` is caught by the surrounding `try` and
`fetch_locations_from_api` returns the empty list (a fetch failure for the
cache policy), discarding the well-formed entries too. -/
theorem fetch_locations_missing_field_aborts (resp : LocResponse)
    (t : LocTask) (e : RawLocEntry) (ht : t ∈ resp.tasks) (he : e ∈ t.result)
    (hbad : e.location_name = none ∨ e.location_code = none) :
    fetch_locations_from_api resp = [] := by
  unfold fetch_locations_from_api
  split
  · rw [flattenLocTasks_eq_none ht
      (flattenLocEntries_eq_none he (locEntryRecord_eq_none hbad))]
  · rfl

/-- Witness for the amended C6 at the concrete malformed response. -/
theorem fetch_locations_missing_field_aborts_witness :
    fetch_locations_from_api locRespBad = [] :=
  fetch_locations_missing_field_aborts locRespBad
    { result := [ { location_name := some "Berlin", location_code := some 1 },
                  { location_name := none, location_code := some 2 } ] }
    { location_name := none, location_code := some 2 }
    (by decide) (by decide) (Or.inl rfl)
